import Mathlib

/-
Shallow embedding of `persistimer` (src/timer.go): a persistent one-shot
timer manager over an external ordered/key-value store (redis).

Time is modelled as Go models it: a `time.Time` is a pair of seconds and
nanoseconds since the epoch (well-formed when `nsec < 10^9`); a `Duration`
is an integer nanosecond count.  Ordered-set scores are modelled as `Int`:
the source stores `float64(t.Deadline.Unix())` and reads back
`int64(result.Score)`, and a float64 represents every integer of magnitude
below 2^53 exactly, so for any realistic Unix timestamp the round-trip is
the identity on the integer.

The store is modelled as association lists: one ordered set (member, score)
for the manager's namespace and one key-value table (key, value, ttl in
nanoseconds), with the operation semantics of §6 of the store contract
(upsert replaces, remove-on-missing is a no-op).  External conditions the
code reacts to (pop timeout vs transport error, channel capacity becoming
free within the 3-second select) are supplied as explicit oracle inputs.
-/

namespace Persistimer

/-- Go `time.Time`: seconds and nanoseconds since the Unix epoch.
A well-formed value has `nsec < 1000000000`. -/
structure GoTime where
  sec : Int
  nsec : Nat
deriving DecidableEq

/-- Go `t.Unix()`: whole seconds since the epoch (the seconds field;
any sub-second component is dropped). -/
def GoTime.Unix (t : GoTime) : Int := t.sec

/-- Go `t.After(u)`: strict instant comparison. -/
def GoTime.After (t u : GoTime) : Bool :=
  decide (u.sec < t.sec) || (decide (t.sec = u.sec) && decide (u.nsec < t.nsec))

/-- Go `t.Sub(u)` as a `Duration`, i.e. an integer count of nanoseconds. -/
def GoTime.SubNs (t u : GoTime) : Int :=
  (t.sec - u.sec) * 1000000000 + ((t.nsec : Int) - (u.nsec : Int))

/-- Go `time.Unix(sec, 0)`. -/
def timeUnix (sec : Int) : GoTime := ⟨sec, 0⟩

/-- Go `time.Minute` in nanoseconds. -/
def goMinute : Int := 60 * 1000000000

/-- The `Timer` struct of timer.go. -/
structure Timer where
  ID : String
  Ctx : String
  Deadline : GoTime
deriving DecidableEq

/-- Ordered-set upsert (redis `ZADD`): replaces the score of an existing
member, never duplicates. -/
def zadd : List (String × Int) → String → Int → List (String × Int)
  | [], m, sc => [(m, sc)]
  | p :: ps, m, sc => if p.1 = m then (m, sc) :: ps else p :: zadd ps m sc

/-- Ordered-set removal (redis `ZREM`): a no-op when the member is absent. -/
def zrem : List (String × Int) → String → List (String × Int)
  | [], _ => []
  | p :: ps, m => if p.1 = m then zrem ps m else p :: zrem ps m

/-- Score lookup in the ordered set. -/
def zscore : List (String × Int) → String → Option Int
  | [], _ => none
  | p :: ps, m => if p.1 = m then some p.2 else zscore ps m

/-- The entry with the least score (redis pop-min order: by score,
ties broken by member). -/
def zminEntry : List (String × Int) → Option (String × Int)
  | [] => none
  | p :: ps =>
    match zminEntry ps with
    | none => some p
    | some q => if q.2 < p.2 ∨ (q.2 = p.2 ∧ q.1 < p.1) then some q else some p

/-- Key-value upsert with expiry (redis `SET key value ttl`); ttl in ns. -/
def kvSet : List (String × String × Int) → String → String → Int →
    List (String × String × Int)
  | [], k, v, ttl => [(k, v, ttl)]
  | e :: es, k, v, ttl => if e.1 = k then (k, v, ttl) :: es else e :: kvSet es k v ttl

/-- Key-value delete (redis `DEL`): a no-op when the key is absent. -/
def kvDel : List (String × String × Int) → String → List (String × String × Int)
  | [], _ => []
  | e :: es, k => if e.1 = k then kvDel es k else e :: kvDel es k

/-- Key-value read (redis `GET`): the stored (value, ttl), if present. -/
def kvGet : List (String × String × Int) → String → Option (String × Int)
  | [], _ => none
  | e :: es, k => if e.1 = k then some e.2 else kvGet es k

/-- The two-part store state a manager sees: the namespace's ordered set and
the key-value table. -/
structure Store where
  zset : List (String × Int)
  kv : List (String × String × Int)
deriving DecidableEq

/-- `Manager.ContextKey(id)`: `fmt.Sprintf("%s_%s", mgr.name, id)`. -/
def ContextKey (name id : String) : String := name ++ "_" ++ id

/-- The TTL computed by `AddTimer` (timer.go lines 97-101):
`exp := 10*time.Minute; if t.Deadline.After(now) { exp += t.Deadline.Sub(now) }`. -/
def addTimerTTL (now : GoTime) (t : Timer) : Int :=
  let exp : Int := 10 * goMinute
  if t.Deadline.After now then exp + t.Deadline.SubNs now else exp

/-- `Manager.AddTimer` (timer.go lines 93-112): pipelines
`SET ContextKey(id) ctx ttl` and `ZADD name {id, Deadline.Unix()}` and
executes them as one batch; `execOk` is whether `pipe.Exec()` succeeds.
No field of the timer is validated.  On failure the wrapped store error is
returned. -/
def AddTimer (name : String) (now : GoTime) (s : Store) (t : Timer)
    (execOk : Bool) : Except String Store :=
  let exp := addTimerTTL now t
  if execOk then
    .ok { zset := zadd s.zset t.ID t.Deadline.Unix,
          kv := kvSet s.kv (ContextKey name t.ID) t.Ctx exp }
  else
    .error "failed to add timer"

/-- `Manager.DelTimer` (timer.go lines 116-127): pipelines
`ZREM name id` and `DEL ContextKey(id)` as one batch; `execOk` is whether
`pipe.Exec()` succeeds. -/
def DelTimer (name : String) (s : Store) (id : String)
    (execOk : Bool) : Except String Store :=
  if execOk then
    .ok { zset := zrem s.zset id,
          kv := kvDel s.kv (ContextKey name id) }
  else
    .error "failed to del timer"

/-- The member returned by `BZPopMin`: redis hands back an `interface\x7b\x7d`,
so the type assertion `result.Member.(string)` can fail. -/
inductive Member where
  | str (s : String)
  | nonStr
deriving DecidableEq

/-- Outcome of `mgr.redis.BZPopMin(time.Minute, mgr.name).Result()`. -/
inductive PopResult where
  | nilErr
  | otherErr (msg : String)
  | ok (member : Member) (score : Int)
deriving DecidableEq

/-- Outcome of `mgr.redis.Get(key).Result()`: `redis.Nil` (not found) is an
error distinct from transport errors, but timer.go treats both the same. -/
inductive GetResult where
  | found (value : String)
  | notFound
  | err (msg : String)
deriving DecidableEq

/-- The select timeout guarding the notification send (timer.go line 86). -/
def notifyWaitBoundSec : Nat := 3

/-- The backoff after a pop transport error (timer.go line 53). -/
def popBackoffSec : Int := 3

/-- The externally observable effects of one iteration of the
`background` loop. -/
structure IterEffect where
  delivered : Option Timer := none
  zadds : List (String × Int) := []
  kvDeletes : List String := []
  sleepSec : Int := 0
  warnLogged : Bool := false
  errorLogged : Bool := false
deriving DecidableEq

/-- One iteration of `Manager.background` (timer.go lines 48-89).
`nowUnix` is `time.Now().Unix()` at the due check; `pop` is the pop
outcome; `get` the context read outcome; `chanFreeAfter` the number of
seconds until the notification channel has capacity (`none`: not within
this iteration) — the select's timer arm wins iff capacity does not free
strictly before `notifyWaitBoundSec`. -/
def backgroundIter (nowUnix : Int) (pop : PopResult) (get : GetResult)
    (chanFreeAfter : Option Nat) : IterEffect :=
  match pop with
  | .nilErr => {}
  | .otherErr _ => { warnLogged := true, sleepSec := popBackoffSec }
  | .ok m score =>
    match m with
    | .nonStr => { warnLogged := true }
    | .str id =>
      let deadline := score
      if deadline - nowUnix > 0 then
        { zadds := [(id, deadline)], sleepSec := deadline - nowUnix }
      else
        match get with
        | .notFound => { warnLogged := true }
        | .err _ => { warnLogged := true }
        | .found ctx =>
          let t : Timer := { ID := id, Ctx := ctx, Deadline := timeUnix deadline }
          match chanFreeAfter with
          | some d =>
            if d < notifyWaitBoundSec then { delivered := some t }
            else { errorLogged := true }
          | none => { errorLogged := true }

/-- The oracle inputs of one iteration. -/
structure IterInput where
  pop : PopResult
  get : GetResult
  chanFreeAfter : Option Nat
deriving DecidableEq

/-- The `for` loop of `background`: every branch of the body ends in
`continue` or falls through to the next iteration, so one iteration is
performed per oracle input, unconditionally. -/
def backgroundRun (nowUnix : Int) (inputs : List IterInput) : List IterEffect :=
  inputs.map fun i => backgroundIter nowUnix i.pop i.get i.chanFreeAfter

/-- `BZPopMin` acting on the store: a transport error leaves the store
unchanged; otherwise the least-scored member is atomically removed and
returned, and an empty set yields `redis.Nil` after the horizon. -/
def bzPopMin (s : Store) (transportErr : Bool) : PopResult × Store :=
  if transportErr then (.otherErr "transport", s)
  else
    match zminEntry s.zset with
    | some q => (.ok (.str q.1) q.2, { s with zset := zrem s.zset q.1 })
    | none => (.nilErr, s)

/-- `GET` acting on the store (with a transport-error oracle). -/
def storeGet (s : Store) (key : String) (getErr : Bool) : GetResult :=
  if getErr then .err "transport"
  else
    match kvGet s.kv key with
    | some v => .found v.1
    | none => .notFound

/-- Apply the writes an iteration issued to the store: the re-upserts of
the not-yet-due branch (the poller issues no key-value writes or deletes,
but the frame is stated over both fields). -/
def applyIterWrites (s : Store) (e : IterEffect) : Store :=
  { zset := e.zadds.foldl (fun zs p => zadd zs p.1 p.2) s.zset,
    kv := e.kvDeletes.foldl kvDel s.kv }

/-- One iteration of `background` wired to the store: the popped member and
the context read come from the store itself. -/
def backgroundStepStore (name : String) (s : Store) (nowUnix : Int)
    (popErr getErr : Bool) (chanFreeAfter : Option Nat) : Store × IterEffect :=
  let pr := bzPopMin s popErr
  let get :=
    match pr.1 with
    | .ok (.str id) _ => storeGet pr.2 (ContextKey name id) getErr
    | _ => .notFound
  let e := backgroundIter nowUnix pr.1 get chanFreeAfter
  (applyIterWrites pr.2 e, e)

/-! Helper lemmas about the store operations. -/

theorem zrem_zrem (zs : List (String × Int)) (m : String) :
    zrem (zrem zs m) m = zrem zs m := by
  induction zs with
  | nil => rfl
  | cons p ps ih =>
    by_cases h : p.1 = m
    · simp [zrem, h, ih]
    · simp [zrem, h, ih]

theorem zscore_zrem_self (zs : List (String × Int)) (m : String) :
    zscore (zrem zs m) m = none := by
  induction zs with
  | nil => rfl
  | cons p ps ih =>
    by_cases h : p.1 = m
    · simp [zrem, h, ih]
    · simp [zrem, h, zscore, ih]

theorem kvDel_kvDel (kv : List (String × String × Int)) (k : String) :
    kvDel (kvDel kv k) k = kvDel kv k := by
  induction kv with
  | nil => rfl
  | cons e es ih =>
    by_cases h : e.1 = k
    · simp [kvDel, h, ih]
    · simp [kvDel, h, ih]

theorem kvGet_kvDel_self (kv : List (String × String × Int)) (k : String) :
    kvGet (kvDel kv k) k = none := by
  induction kv with
  | nil => rfl
  | cons e es ih =>
    by_cases h : e.1 = k
    · simp [kvDel, h, ih]
    · simp [kvDel, h, kvGet, ih]

theorem kvGet_kvSet_self (kv : List (String × String × Int)) (k v : String)
    (ttl : Int) : kvGet (kvSet kv k v ttl) k = some (v, ttl) := by
  induction kv with
  | nil => simp [kvSet, kvGet]
  | cons e es ih =>
    by_cases h : e.1 = k
    · simp [kvSet, h, kvGet]
    · simp [kvSet, h, kvGet, ih]

/-! Helper lemmas about the poller iteration. -/

theorem backgroundIter_kvDeletes (nowUnix : Int) (pop : PopResult)
    (get : GetResult) (ch : Option Nat) :
    (backgroundIter nowUnix pop get ch).kvDeletes = [] := by
  cases pop with
  | nilErr => rfl
  | otherErr msg => rfl
  | ok m score =>
    cases m with
    | nonStr => rfl
    | str id =>
      by_cases hd : score - nowUnix > 0
      · simp [backgroundIter, hd]
      · cases get with
        | notFound => simp [backgroundIter, hd]
        | err msg => simp [backgroundIter, hd]
        | found ctx =>
          cases ch with
          | none => simp [backgroundIter, hd]
          | some d =>
            by_cases hb : d < notifyWaitBoundSec
            · simp [backgroundIter, hd, hb]
            · simp [backgroundIter, hd, hb]

theorem backgroundIter_zadds_due (nowUnix : Int) (id : String) (score : Int)
    (get : GetResult) (ch : Option Nat) (hdue : score ≤ nowUnix) :
    (backgroundIter nowUnix (.ok (.str id) score) get ch).zadds = [] := by
  have hd : ¬ score - nowUnix > 0 := by omega
  cases get with
  | notFound => simp [backgroundIter, hd]
  | err msg => simp [backgroundIter, hd]
  | found ctx =>
    cases ch with
    | none => simp [backgroundIter, hd]
    | some d =>
      by_cases hb : d < notifyWaitBoundSec
      · simp [backgroundIter, hd, hb]
      · simp [backgroundIter, hd, hb]

/-- A well-formed `After` agrees with the sign of the nanosecond
difference. -/
theorem GoTime.after_iff_subNs_pos (t u : GoTime)
    (ht : t.nsec < 1000000000) (hu : u.nsec < 1000000000) :
    t.After u = true ↔ 0 < t.SubNs u := by
  simp only [GoTime.After, GoTime.SubNs, Bool.or_eq_true, Bool.and_eq_true,
    decide_eq_true_eq]
  omega

/-! Claim theorems. -/

/-- Claim C1: for every registered timer the poller delivers, the
notification is never delivered before the timer's deadline: a popped
member whose score is still in the future is not delivered, and every
delivered timer's deadline is at or before the poller's clock. -/
theorem C1_no_premature_delivery :
    (∀ (nowUnix : Int) (id : String) (score : Int) (get : GetResult)
        (ch : Option Nat), nowUnix < score →
        (backgroundIter nowUnix (.ok (.str id) score) get ch).delivered = none) ∧
    (∀ (nowUnix : Int) (pop : PopResult) (get : GetResult) (ch : Option Nat)
        (t : Timer),
        (backgroundIter nowUnix pop get ch).delivered = some t →
        t.Deadline.Unix ≤ nowUnix) := by
  constructor
  · intro nowUnix id score get ch h
    have hd : score - nowUnix > 0 := by omega
    simp [backgroundIter, hd]
  · intro nowUnix pop get ch t h
    cases pop with
    | nilErr => simp [backgroundIter] at h
    | otherErr msg => simp [backgroundIter] at h
    | ok m score =>
      cases m with
      | nonStr => simp [backgroundIter] at h
      | str id =>
        by_cases hd : score - nowUnix > 0
        · simp [backgroundIter, hd] at h
        · cases get with
          | notFound => simp [backgroundIter, hd] at h
          | err msg => simp [backgroundIter, hd] at h
          | found ctx =>
            cases ch with
            | none => simp [backgroundIter, hd] at h
            | some d =>
              by_cases hb : d < notifyWaitBoundSec
              · simp [backgroundIter, hd, hb] at h
                subst h
                simp [timeUnix, GoTime.Unix]
                omega
              · simp [backgroundIter, hd, hb] at h

/-- Claim C1 witness. -/
theorem C1_witness :
    (backgroundIter 5 (.ok (.str "a") 9) .notFound none).delivered = none :=
  C1_no_premature_delivery.1 5 "a" 9 .notFound none (by decide)

/-- Claim C2: the TTL `AddTimer` computes for the context record equals
`max(0, Deadline - now) + 10 minutes` (for well-formed times). -/
theorem C2_addtimer_ttl (now : GoTime) (t : Timer)
    (ht : t.Deadline.nsec < 1000000000) (hn : now.nsec < 1000000000) :
    addTimerTTL now t = max 0 (t.Deadline.SubNs now) + 600 * 1000000000 := by
  simp only [addTimerTTL, goMinute]
  by_cases hA : t.Deadline.After now = true
  · have hpos := (GoTime.after_iff_subNs_pos t.Deadline now ht hn).mp hA
    rw [if_pos hA, max_eq_right hpos.le]
    omega
  · have hnp : ¬ 0 < t.Deadline.SubNs now := fun hc =>
      hA ((GoTime.after_iff_subNs_pos t.Deadline now ht hn).mpr hc)
    rw [if_neg hA, max_eq_left (by omega)]
    omega

/-- Claim C2 witness. -/
theorem C2_witness :
    addTimerTTL ⟨0, 0⟩ ⟨"a", "c", ⟨7, 500000000⟩⟩ =
      max 0 (GoTime.SubNs ⟨7, 500000000⟩ ⟨0, 0⟩) + 600 * 1000000000 :=
  C2_addtimer_ttl ⟨0, 0⟩ ⟨"a", "c", ⟨7, 500000000⟩⟩ (by decide) (by decide)

/-- Claim C3: popping an entry whose deadline is in the future re-upserts
exactly the same (id, deadline) pair with the unchanged score, sleeps
exactly `deadline - now` seconds, and delivers nothing else this
iteration. -/
theorem C3_not_due_requeue_and_sleep (nowUnix score : Int) (id : String)
    (get : GetResult) (ch : Option Nat) (h : nowUnix < score) :
    backgroundIter nowUnix (.ok (.str id) score) get ch =
      { zadds := [(id, score)], sleepSec := score - nowUnix } := by
  have hd : score - nowUnix > 0 := by omega
  simp [backgroundIter, hd]

/-- Claim C3 witness. -/
theorem C3_witness :
    backgroundIter 5 (.ok (.str "b") 9) .notFound none =
      { zadds := [("b", 9)], sleepSec := 4 } :=
  C3_not_due_requeue_and_sleep 5 9 "b" .notFound none (by decide)

/-- Claim C4: a no-data pop timeout retries immediately and silently (no
sleep, no log); any other pop error logs and backs off exactly 3 seconds;
and the loop never terminates — it performs one iteration per oracle
input, unconditionally. -/
theorem C4_pop_error_handling :
    (∀ (nowUnix : Int) (get : GetResult) (ch : Option Nat),
        backgroundIter nowUnix .nilErr get ch = {}) ∧
    (∀ (nowUnix : Int) (msg : String) (get : GetResult) (ch : Option Nat),
        backgroundIter nowUnix (.otherErr msg) get ch =
          { warnLogged := true, sleepSec := popBackoffSec }) ∧
    (∀ (nowUnix : Int) (inputs : List IterInput),
        (backgroundRun nowUnix inputs).length = inputs.length) := by
  refine ⟨fun _ _ _ => rfl, fun _ _ _ _ => rfl, fun nowUnix inputs => ?_⟩
  simp [backgroundRun]

/-- Claim C5: with a due timer and its context in hand, capacity freeing
strictly within the 3-second bound sends the notification; otherwise the
overflow is logged as an error and the timer is dropped with no retry. -/
theorem C5_channel_overflow_policy :
    (∀ (nowUnix score : Int) (id ctx : String) (d : Nat),
        score ≤ nowUnix → d < notifyWaitBoundSec →
        backgroundIter nowUnix (.ok (.str id) score) (.found ctx) (some d) =
          { delivered := some ⟨id, ctx, timeUnix score⟩ }) ∧
    (∀ (nowUnix score : Int) (id ctx : String) (d : Nat),
        score ≤ nowUnix → notifyWaitBoundSec ≤ d →
        backgroundIter nowUnix (.ok (.str id) score) (.found ctx) (some d) =
          { errorLogged := true }) ∧
    (∀ (nowUnix score : Int) (id ctx : String),
        score ≤ nowUnix →
        backgroundIter nowUnix (.ok (.str id) score) (.found ctx) none =
          { errorLogged := true }) := by
  refine ⟨?_, ?_, ?_⟩
  · intro nowUnix score id ctx d hdue hb
    have hd : ¬ score - nowUnix > 0 := by omega
    simp [backgroundIter, hd, hb]
  · intro nowUnix score id ctx d hdue hb
    have hd : ¬ score - nowUnix > 0 := by omega
    have hb' : ¬ d < notifyWaitBoundSec := by omega
    simp [backgroundIter, hd, hb']
  · intro nowUnix score id ctx hdue
    have hd : ¬ score - nowUnix > 0 := by omega
    simp [backgroundIter, hd]

/-- Claim C5 witness. -/
theorem C5_witness :
    backgroundIter 9 (.ok (.str "a") 9) (.found "c") none =
      { errorLogged := true } :=
  C5_channel_overflow_policy.2.2 9 9 "a" "c" (by decide)

/-- Claim C6: `DelTimer` removes both the ordered-set member and the
context key as one batch, succeeds for any id (existing or not), and is
idempotent: running it again on the resulting store changes nothing. -/
theorem C6_deltimer_idempotent (name : String) (s : Store) (id : String) :
    ∃ s', DelTimer name s id true = .ok s' ∧
      zscore s'.zset id = none ∧
      kvGet s'.kv (ContextKey name id) = none ∧
      DelTimer name s' id true = .ok s' := by
  refine ⟨_, rfl, ?_, ?_, ?_⟩
  · exact zscore_zrem_self s.zset id
  · exact kvGet_kvDel_self s.kv (ContextKey name id)
  · simp [DelTimer, zrem_zrem, kvDel_kvDel]

/-- Claim C7: when a due timer's context read fails or finds nothing, the
failure is logged and the timer is dropped: no notification, no re-upsert,
no sleep. -/
theorem C7_context_missing_drops :
    (∀ (nowUnix score : Int) (id : String) (ch : Option Nat),
        score ≤ nowUnix →
        backgroundIter nowUnix (.ok (.str id) score) .notFound ch =
          { warnLogged := true }) ∧
    (∀ (nowUnix score : Int) (id msg : String) (ch : Option Nat),
        score ≤ nowUnix →
        backgroundIter nowUnix (.ok (.str id) score) (.err msg) ch =
          { warnLogged := true }) := by
  constructor
  · intro nowUnix score id ch hdue
    have hd : ¬ score - nowUnix > 0 := by omega
    simp [backgroundIter, hd]
  · intro nowUnix score id msg ch hdue
    have hd : ¬ score - nowUnix > 0 := by omega
    simp [backgroundIter, hd]

/-- Claim C7 witness. -/
theorem C7_witness :
    backgroundIter 9 (.ok (.str "a") 9) .notFound none =
      { warnLogged := true } :=
  C7_context_missing_drops.1 9 9 "a" none (by decide)

/-- Claim C8: when the poller pops a due entry, the only store change of
the whole iteration is the pop's implicit removal of that ordered-set
member; the key-value table (in particular the context key) is untouched
and the poller issues no delete. -/
theorem C8_firing_frame (name : String) (s : Store) (nowUnix : Int)
    (getErr : Bool) (ch : Option Nat) (id : String) (score : Int)
    (hmin : zminEntry s.zset = some (id, score)) (hdue : score ≤ nowUnix) :
    (backgroundStepStore name s nowUnix false getErr ch).1 =
      { zset := zrem s.zset id, kv := s.kv } ∧
    (backgroundStepStore name s nowUnix false getErr ch).2.kvDeletes = [] ∧
    (backgroundStepStore name s nowUnix false getErr ch).2.zadds = [] := by
  have hz := backgroundIter_zadds_due nowUnix id score
    (storeGet { s with zset := zrem s.zset id } (ContextKey name id) getErr)
    ch hdue
  have hk := backgroundIter_kvDeletes nowUnix (.ok (.str id) score)
    (storeGet { s with zset := zrem s.zset id } (ContextKey name id) getErr) ch
  refine ⟨?_, ?_, ?_⟩
  · simp [backgroundStepStore, bzPopMin, hmin, applyIterWrites, hz, hk]
  · simp [backgroundStepStore, bzPopMin, hmin, hk]
  · simp [backgroundStepStore, bzPopMin, hmin, hz]

/-- Claim C8 witness. -/
theorem C8_witness :
    (backgroundStepStore "n" ⟨[("a", 5)], [("n_a", "c", 7)]⟩ 9 false false
        none).1 = { zset := [], kv := [("n_a", "c", 7)] } ∧
    (backgroundStepStore "n" ⟨[("a", 5)], [("n_a", "c", 7)]⟩ 9 false false
        none).2.kvDeletes = [] ∧
    (backgroundStepStore "n" ⟨[("a", 5)], [("n_a", "c", 7)]⟩ 9 false false
        none).2.zadds = [] :=
  C8_firing_frame "n" ⟨[("a", 5)], [("n_a", "c", 7)]⟩ 9 false none "a" 5
    (by decide) (by decide)

/-- Claim C9: `AddTimer` validates nothing — for every timer, the empty ID
included, it issues exactly the two batched store writes and returns an
error if and only if the batch fails. -/
theorem C9_addtimer_no_validation (name : String) (now : GoTime) (s : Store)
    (t : Timer) (execOk : Bool) :
    ((∃ s', AddTimer name now s t execOk = .ok s') ↔ execOk = true) ∧
    (execOk = true → AddTimer name now s t execOk =
      .ok { zset := zadd s.zset t.ID t.Deadline.Unix,
            kv := kvSet s.kv (ContextKey name t.ID) t.Ctx (addTimerTTL now t) }) ∧
    (execOk = false → AddTimer name now s t execOk =
      .error "failed to add timer") := by
  cases execOk with
  | true => exact ⟨⟨fun _ => rfl, fun _ => ⟨_, rfl⟩⟩, fun _ => rfl,
      fun h => absurd h (by simp)⟩
  | false =>
    refine ⟨⟨?_, fun h => absurd h (by simp)⟩, fun h => absurd h (by simp),
      fun _ => rfl⟩
    rintro ⟨s', hs'⟩
    simp [AddTimer] at hs'

/-- Claim C9 witness (empty ID). -/
theorem C9_witness :
    AddTimer "n" ⟨0, 0⟩ ⟨[], []⟩ ⟨"", "c", ⟨5, 0⟩⟩ false =
      .error "failed to add timer" :=
  (C9_addtimer_no_validation "n" ⟨0, 0⟩ ⟨[], []⟩ ⟨"", "c", ⟨5, 0⟩⟩ false).2.2 rfl

/-- Claim C10: a timer registered by `AddTimer` and later popped due and
delivered comes back with its ID and context verbatim, and with its
deadline truncated to whole seconds: the delivered `Deadline` is
`time.Unix(score, 0)`, dropping any sub-second part of the registered
deadline. -/
theorem C10_roundtrip_truncates_deadline (name : String) (now : GoTime)
    (s0 s1 : Store) (t : Timer) (now2 : Int) (d : Nat)
    (hadd : AddTimer name now s0 t true = .ok s1)
    (hmin : zminEntry s1.zset = some (t.ID, t.Deadline.Unix))
    (hdue : t.Deadline.Unix ≤ now2) (hch : d < notifyWaitBoundSec) :
    (backgroundStepStore name s1 now2 false false (some d)).2.delivered =
      some ⟨t.ID, t.Ctx, ⟨t.Deadline.sec, 0⟩⟩ := by
  have hd : ¬ now2 < t.Deadline.sec := by
    simp only [GoTime.Unix] at hdue
    omega
  have hkv : s1.kv = kvSet s0.kv (ContextKey name t.ID) t.Ctx (addTimerTTL now t) := by
    simp [AddTimer] at hadd
    rw [← hadd]
  simp [backgroundStepStore, bzPopMin, hmin, storeGet, hkv, kvGet_kvSet_self,
    backgroundIter, hd, hch, timeUnix, GoTime.Unix]

/-- Claim C10 witness. -/
theorem C10_witness :
    (backgroundStepStore "n" ⟨[("a", 10)], [("n_a", "c", 610000000005)]⟩ 11
        false false (some 0)).2.delivered = some ⟨"a", "c", ⟨10, 0⟩⟩ :=
  C10_roundtrip_truncates_deadline "n" ⟨0, 0⟩ ⟨[], []⟩
    ⟨[("a", 10)], [("n_a", "c", 610000000005)]⟩ ⟨"a", "c", ⟨10, 5⟩⟩ 11 0
    rfl rfl (by decide) (by decide)

end Persistimer
